import Mathlib

set_option maxHeartbeats 1000000

namespace RustStackHarness

/-!
Verification development for the ruststack test harness
(`examples/conftest.py` and `.github/scripts/integration_test.py`).

Time is measured in whole milliseconds throughout, except for the subprocess
grace period, which the source expresses in seconds.
-/

/-! ### Readiness prober (`wait_for_ruststack`, conftest.py lines 44-55) -/

/-- The JSON body of a `/health` response, reduced to the one field the harness
ever reads: `test_health_check` (integration_test.py line 47) checks
`data.get("status")`.  `none` models a body without a `status` field. -/
structure HealthBody where
  status : Option String
deriving DecidableEq, Repr

/-- The observable outcome of one `requests.get(f"{endpoint}/health", timeout=1)`
call: an HTTP response, a `requests.RequestException` (connection refused /
reset / per-request timeout), or an exception outside the `RequestException`
family (which the loop's `except requests.RequestException` does not catch). -/
inductive AttemptResult where
  | response (statusCode : Nat) (body : HealthBody)
  | requestException
  | otherException
deriving DecidableEq, Repr

/-- One attempt of the polling loop: how many milliseconds the `requests.get`
call took (at most 1000, the `timeout=1` per-request budget) and its outcome. -/
structure Attempt where
  duration : Nat
  result : AttemptResult
deriving DecidableEq, Repr

/-- Shallow embedding of `wait_for_ruststack` (conftest.py lines 44-55).
`attempts j` is the behaviour of the j-th `requests.get`; `elapsed` is
`time.time() - start` in milliseconds at the top of the `while` loop; the
hard-coded `time.sleep(0.1)` adds 100 ms after every unsuccessful attempt.
Returns `.error ()` when an exception outside `requests.RequestException`
escapes the loop, and otherwise `.ok (answer, elapsed-at-return)`. -/
def waitForRuststack (attempts : Nat → Attempt) (timeoutMs : Nat) :
    Nat → Nat → Except Unit (Bool × Nat)
  | k, elapsed =>
    if elapsed < timeoutMs then
      match (attempts k).result with
      | .response statusCode _ =>
          if statusCode = 200 then
            .ok (true, elapsed + (attempts k).duration)
          else
            waitForRuststack attempts timeoutMs (k + 1)
              (elapsed + (attempts k).duration + 100)
      | .requestException =>
          waitForRuststack attempts timeoutMs (k + 1)
            (elapsed + (attempts k).duration + 100)
      | .otherException => .error ()
    else
      .ok (false, elapsed)
termination_by _k elapsed => timeoutMs - elapsed
decreasing_by all_goals omega

/-- The probe `wait_for_ruststack` started at the beginning of its time budget. -/
def waitForRuststackRun (attempts : Nat → Attempt) (timeoutMs : Nat) :
    Except Unit (Bool × Nat) :=
  waitForRuststack attempts timeoutMs 0 0

/-- Modelled from the spec: "success is HTTP 200 with a JSON body containing a
status field whose value signals the service is operational" (§6), the
operational value being `"running"` as asserted by `test_health_check`
(integration_test.py line 47).  This is the spec's notion of a recognized
"ready" payload, for comparison with what the code actually checks. -/
def readyPayload : AttemptResult → Bool
  | .response statusCode body => statusCode == 200 && body.status == some "running"
  | .requestException => false
  | .otherException => false

/-- The check the code actually performs: `resp.status_code == 200`. -/
def isStatus200 : AttemptResult → Bool
  | .response statusCode _ => statusCode == 200
  | .requestException => false
  | .otherException => false

/-- A response body replaced by an empty one; two attempt results agree up
to `stripBody` exactly when they agree on everything `wait_for_ruststack`
can observe. -/
def stripBody : AttemptResult → AttemptResult
  | .response statusCode _ => .response statusCode ⟨none⟩
  | .requestException => .requestException
  | .otherException => .otherException

/-! ### Run aggregator (`main`, integration_test.py lines 228-263) -/

/-- The outcome of one integration test body: a normal return, or an exception
of the `Exception` family escaping with message `msg` (assertion failures and
client errors both surface this way and are caught by `main`'s
`except Exception as e`). -/
inductive TestOutcome where
  | passes
  | raises (msg : String)
deriving DecidableEq, Repr

/-- The loop of `main` (integration_test.py lines 245-252): every test in the list
is attempted in order; an escaping exception is caught and `(name, str(e))` is
appended to `failed`.  Returns the attempted test names and the `failed`
list, both in order. -/
def runTests : List (String × TestOutcome) → List String × List (String × String)
  | [] => ([], [])
  | (name, outcome) :: rest =>
      let r := runTests rest
      match outcome with
      | .passes => (name :: r.1, r.2)
      | .raises msg => (name :: r.1, (name, msg) :: r.2)

/-- The exit of `main` (integration_test.py lines 256-263): `sys.exit(1)` when
`failed` is non-empty, `sys.exit(0)` otherwise. -/
def mainExitCode (tests : List (String × TestOutcome)) : Nat :=
  if (runTests tests).2 ≠ [] then 1 else 0

/-- The four tests `main` runs (integration_test.py lines 236-241), each with
the outcome its body has when the service is unreachable: the first network
call of every test raises a `ConnectionError`, which `main`'s loop catches.
`main` performs no readiness probe before this loop. -/
def testsWhenServiceDown : List (String × TestOutcome) :=
  [("test_health_check", .raises "ConnectionError"),
   ("test_s3_operations", .raises "ConnectionError"),
   ("test_dynamodb_operations", .raises "ConnectionError"),
   ("test_lambda_api", .raises "ConnectionError")]

/-! ### S3 model and bucket-fixture teardown (conftest.py lines 124-138,
integration_test.py lines 97-107) -/

/-- The remote S3 state the harness manipulates: existing buckets and the
objects, keyed by (bucket, key). -/
structure S3State where
  buckets : List String
  objects : List (String × String)
deriving DecidableEq, Repr

/-- Client call `list_objects_v2`: raises `NoSuchBucket` when the bucket does not exist,
else returns the keys of the bucket's objects. -/
def listObjectsV2 (st : S3State) (bucket : String) : Except String (List String) :=
  if bucket ∈ st.buckets then
    .ok ((st.objects.filter (fun p => p.1 == bucket)).map Prod.snd)
  else
    .error "NoSuchBucket"

/-- Client call `delete_object`: raises `NoSuchBucket` when the bucket does not exist;
deleting an absent key succeeds (S3 semantics). -/
def deleteObject (st : S3State) (bucket key : String) : Except String S3State :=
  if bucket ∈ st.buckets then
    .ok { st with objects := st.objects.filter (fun p => !(p == (bucket, key))) }
  else
    .error "NoSuchBucket"

/-- Client call `delete_bucket`: raises `NoSuchBucket` when the bucket does not exist and
`BucketNotEmpty` when objects remain in it. -/
def deleteBucket (st : S3State) (bucket : String) : Except String S3State :=
  if bucket ∈ st.buckets then
    if (st.objects.filter (fun p => p.1 == bucket)).isEmpty then
      .ok { st with buckets := st.buckets.filter (fun b => !(b == bucket)) }
    else
      .error "BucketNotEmpty"
  else
    .error "NoSuchBucket"

/-- One S3 client call, as recorded in a trace of attempted sub-steps. -/
inductive S3Op where
  | listObjects (bucket : String)
  | deleteObject (bucket key : String)
  | deleteBucket (bucket : String)
deriving DecidableEq, Repr

/-- The `for obj in response.get("Contents", [])` loop of the `s3_bucket`
teardown followed by `delete_bucket`, all inside the fixture's single `try`
block: the first exception aborts everything that follows it. -/
def s3DeleteLoop (st : S3State) (bucket : String) :
    List String → List S3Op → S3State × List S3Op
  | [], trace =>
      match deleteBucket st bucket with
      | .ok st' => (st', trace ++ [.deleteBucket bucket])
      | .error _ => (st, trace ++ [.deleteBucket bucket])
  | key :: rest, trace =>
      match deleteObject st bucket key with
      | .ok st' => s3DeleteLoop st' bucket rest (trace ++ [.deleteObject bucket key])
      | .error _ => (st, trace ++ [.deleteObject bucket key])

/-- Teardown of the `s3_bucket` fixture (conftest.py lines 131-138): one
`try` block runs list-objects, then a delete per listed object, then
delete-bucket; the first exception aborts the block and
`except Exception: pass` swallows it.  Returns the final state and the trace
of attempted client calls; the total return type reflects that the teardown
itself never raises. -/
def s3BucketTeardown (st : S3State) (bucket : String) : S3State × List S3Op :=
  match listObjectsV2 st bucket with
  | .error _ => (st, [.listObjects bucket])
  | .ok keys => s3DeleteLoop st bucket keys [.listObjects bucket]

/-- The cleanup handler of `test_s3_operations` (integration_test.py lines
97-107): delete-object and delete-bucket each sit in their own
`try/except: pass`, so both are attempted whatever the first one does. -/
def integrationS3Cleanup (st : S3State) (bucket key : String) :
    S3State × List S3Op :=
  let st1 := match deleteObject st bucket key with
    | .ok st' => st'
    | .error _ => st
  let st2 := match deleteBucket st1 bucket with
    | .ok st' => st'
    | .error _ => st1
  (st2, [.deleteObject bucket key, .deleteBucket bucket])

/-! ### Secrets Manager and DynamoDB fixture teardowns
(conftest.py lines 243-259 and 169-192) -/

/-- The remote Secrets Manager state: names of existing secrets. -/
structure SecretsState where
  secrets : List String
deriving DecidableEq, Repr

/-- Client call `delete_secret` with `ForceDeleteWithoutRecovery=True`: removes the secret
or raises `ResourceNotFoundException` when it does not exist. -/
def deleteSecret (st : SecretsState) (name : String) : Except String SecretsState :=
  if name ∈ st.secrets then
    .ok ⟨st.secrets.filter (fun s => !(s == name))⟩
  else
    .error "ResourceNotFoundException"

/-- Teardown of the `secret` fixture (conftest.py lines 253-259):
`try: delete_secret ... except Exception: pass`.  Always returns `.ok`:
the raw error is caught and discarded. -/
def secretTeardown (st : SecretsState) (name : String) :
    Except String SecretsState :=
  match deleteSecret st name with
  | .ok st' => .ok st'
  | .error _ => .ok st

/-- The remote DynamoDB state: names of existing tables. -/
structure DynamoState where
  tables : List String
deriving DecidableEq, Repr

/-- Client call `delete_table`: removes the table or raises `ResourceNotFoundException`
when it does not exist. -/
def deleteTable (st : DynamoState) (name : String) : Except String DynamoState :=
  if name ∈ st.tables then
    .ok ⟨st.tables.filter (fun t => !(t == name))⟩
  else
    .error "ResourceNotFoundException"

/-- Teardown of the `dynamodb_table` fixture (conftest.py lines 189-192):
`try: delete_table ... except Exception: pass`.  Always returns `.ok`. -/
def dynamodbTableTeardown (st : DynamoState) (name : String) :
    Except String DynamoState :=
  match deleteTable st name with
  | .ok st' => .ok st'
  | .error _ => .ok st

/-- A test's recorded verdict together with the remote state its fixture
teardowns touch.  pytest records the verdict from the test body before
fixture finalizers run; the finalizers only act on the remote state. -/
structure TestRecord where
  verdict : Bool
  secretsState : SecretsState
  dynamoState : DynamoState
deriving DecidableEq, Repr

/-- Run the `secret` and `dynamodb_table` teardowns twice each over a test
record.  The teardowns read and write only the remote state. -/
def teardownTwiceRecord (r : TestRecord) (secretName tableName : String) :
    TestRecord :=
  let s1 := match secretTeardown r.secretsState secretName with
    | .ok st => st
    | .error _ => r.secretsState
  let s2 := match secretTeardown s1 secretName with
    | .ok st => st
    | .error _ => s1
  let t1 := match dynamodbTableTeardown r.dynamoState tableName with
    | .ok st => st
    | .error _ => r.dynamoState
  let t2 := match dynamodbTableTeardown t1 tableName with
    | .ok st => st
    | .error _ => t1
  { verdict := r.verdict, secretsState := s2, dynamoState := t2 }

/-! ### Managed-subprocess teardown (`ruststack_process`, conftest.py
lines 74-105) -/

/-- Behaviour of the ruststack subprocess once `terminate()` has been sent:
it exits after `t` seconds, or it never exits. -/
inductive ProcBehavior where
  | exitsAfter (t : Nat)
  | neverExits
deriving DecidableEq, Repr

/-- An action the harness can take against the subprocess. -/
inductive ProcAction where
  | terminate
  | wait (timeoutS : Nat)
  | kill
deriving DecidableEq, Repr

/-- The `finally` block of `ruststack_process` (conftest.py lines 103-105):
`proc.terminate()` then `proc.wait(timeout=5)`.  `Popen.wait` raises
`subprocess.TimeoutExpired` when the process is still running once the
5-second grace period expires, and the block takes no further action.
Returns the attempted actions and the exception escaping the block, if any. -/
def ruststackProcessTeardown (p : ProcBehavior) : List ProcAction × Option String :=
  match p with
  | .exitsAfter t =>
      if t ≤ 5 then ([.terminate, .wait 5], none)
      else ([.terminate, .wait 5], some "TimeoutExpired")
  | .neverExits => ([.terminate, .wait 5], some "TimeoutExpired")

/-! ### Fixture dependency graph and setup/teardown order
(conftest.py fixture signatures) -/

/-- Modelled from the spec: pytest's fixture engine, which the conftest
fixtures rely on and which is not part of this repository.  "teardown order
is the reverse: B before A" (§4.3); "Scope-based fixture teardown via
generator/yield constructs" (§9).  To set up a fixture, pytest first sets up
each of the fixture's parameters (left to right) that is not already active,
then runs the fixture body up to its `yield`, appending the fixture to the
active list; finalizers later run in reverse (LIFO) order of setup. -/
def setupOrder (deps : String → List String) : Nat → String → List String → List String
  | 0, _, active => active
  | fuel + 1, f, active =>
      if f ∈ active then active
      else ((deps f).foldl (fun acc d => setupOrder deps fuel d acc) active) ++ [f]

/-- Finalizers run last-in first-out: teardown order reverses setup order. -/
def teardownOrder (setup : List String) : List String := setup.reverse

/-- The fixture dependency edges of conftest.py, read off each fixture's
parameter list (e.g. `def delivery_stream(firehose_client, s3_bucket)`,
lines 358-359). -/
def conftestDeps : String → List String
  | "s3_client" => ["ruststack_endpoint"]
  | "s3_bucket" => ["s3_client"]
  | "dynamodb_client" => ["ruststack_endpoint"]
  | "dynamodb_resource" => ["ruststack_endpoint"]
  | "dynamodb_table" => ["dynamodb_client"]
  | "lambda_client" => ["ruststack_endpoint"]
  | "logs_client" => ["ruststack_endpoint"]
  | "secretsmanager_client" => ["ruststack_endpoint"]
  | "secret" => ["secretsmanager_client"]
  | "iam_client" => ["ruststack_endpoint"]
  | "iam_role" => ["iam_client"]
  | "apigatewayv2_client" => ["ruststack_endpoint"]
  | "http_api" => ["apigatewayv2_client"]
  | "firehose_client" => ["ruststack_endpoint"]
  | "delivery_stream" => ["firehose_client", "s3_bucket"]
  | _ => []

/-- Whether `a` is listed strictly before `b` in `order`, both present. -/
def comesBefore (order : List String) (a b : String) : Bool :=
  order.contains a && order.contains b &&
    decide (order.indexOf a < order.indexOf b)

/-- The setup order pytest computes for a test requesting the
`delivery_stream` fixture. -/
def deliveryStreamSetup : List String :=
  setupOrder conftestDeps 8 "delivery_stream" []

/-- Every dependency edge `a ∈ deps b` among the fixtures in `order` is
respected: `a` is created before `b` and torn down after `b`. -/
def depEdgesRespected (deps : String → List String) (order : List String) : Bool :=
  order.all fun b => (deps b).all fun a =>
    comesBefore order a b && comesBefore (teardownOrder order) b a

/-! ### Helper lemmas -/

theorem waitForRuststack_spec (attempts : Nat → Attempt) (timeoutMs : Nat)
    (hnet : ∀ j, (attempts j).result ≠ .otherException) :
    ∀ fuel k elapsed, timeoutMs - elapsed ≤ fuel →
      ∃ b e, waitForRuststack attempts timeoutMs k elapsed = .ok (b, e) ∧
        (b = true → ∃ j, k ≤ j ∧ isStatus200 (attempts j).result = true) ∧
        (b = false → timeoutMs ≤ e) := by
  intro fuel
  induction fuel with
  | zero =>
      intro k elapsed hle
      rw [waitForRuststack]
      have : ¬ elapsed < timeoutMs := by omega
      simp only [this, if_false]
      exact ⟨false, elapsed, rfl, by simp, fun _ => by omega⟩
  | succ n ih =>
      intro k elapsed hle
      rw [waitForRuststack]
      by_cases hlt : elapsed < timeoutMs
      · simp only [hlt, if_true]
        have hnetk := hnet k
        cases hres : (attempts k).result with
        | response statusCode body =>
            by_cases h200 : statusCode = 200
            · simp only [h200, if_true]
              refine ⟨true, elapsed + (attempts k).duration, rfl, ?_, by simp⟩
              intro _
              exact ⟨k, le_refl k, by simp [isStatus200, hres, h200]⟩
            · simp only [h200, if_false]
              have hrec := ih (k + 1) (elapsed + (attempts k).duration + 100)
                (by omega)
              obtain ⟨b, e, heq, htrue, hfalse⟩ := hrec
              refine ⟨b, e, heq, ?_, hfalse⟩
              intro hb
              obtain ⟨j, hj, hj200⟩ := htrue hb
              exact ⟨j, by omega, hj200⟩
        | requestException =>
            have hrec := ih (k + 1) (elapsed + (attempts k).duration + 100)
              (by omega)
            obtain ⟨b, e, heq, htrue, hfalse⟩ := hrec
            refine ⟨b, e, heq, ?_, hfalse⟩
            intro hb
            obtain ⟨j, hj, hj200⟩ := htrue hb
            exact ⟨j, by omega, hj200⟩
        | otherException => exact absurd hres hnetk
      · simp only [hlt, if_false]
        exact ⟨false, elapsed, rfl, by simp, fun _ => by omega⟩

theorem waitForRuststack_body_irrelevant (attempts attempts' : Nat → Attempt)
    (timeoutMs : Nat)
    (h : ∀ j, (attempts j).duration = (attempts' j).duration ∧
      stripBody (attempts j).result = stripBody (attempts' j).result) :
    ∀ fuel k elapsed, timeoutMs - elapsed ≤ fuel →
      waitForRuststack attempts timeoutMs k elapsed =
        waitForRuststack attempts' timeoutMs k elapsed := by
  intro fuel
  induction fuel with
  | zero =>
      intro k elapsed hle
      conv_lhs => rw [waitForRuststack]
      conv_rhs => rw [waitForRuststack]
      have : ¬ elapsed < timeoutMs := by omega
      simp only [this, if_false]
  | succ n ih =>
      intro k elapsed hle
      conv_lhs => rw [waitForRuststack]
      conv_rhs => rw [waitForRuststack]
      by_cases hlt : elapsed < timeoutMs
      · simp only [hlt, if_true]
        obtain ⟨hdur, hres⟩ := h k
        cases h1 : (attempts k).result with
        | response statusCode body =>
            cases h2 : (attempts' k).result with
            | response statusCode' body' =>
                have : statusCode = statusCode' := by
                  rw [h1, h2] at hres
                  simpa [stripBody] using hres
                subst this
                by_cases h200 : statusCode = 200
                · simp only [h200, if_true, hdur]
                · simp only [h200, if_false, hdur]
                  exact ih (k + 1) (elapsed + (attempts' k).duration + 100)
                    (by omega)
            | requestException => rw [h1, h2] at hres; simp [stripBody] at hres
            | otherException => rw [h1, h2] at hres; simp [stripBody] at hres
        | requestException =>
            cases h2 : (attempts' k).result with
            | response statusCode' body' =>
                rw [h1, h2] at hres; simp [stripBody] at hres
            | requestException =>
                rw [hdur]
                exact ih (k + 1) (elapsed + (attempts' k).duration + 100)
                  (by omega)
            | otherException => rw [h1, h2] at hres; simp [stripBody] at hres
        | otherException =>
            cases h2 : (attempts' k).result with
            | response statusCode' body' =>
                rw [h1, h2] at hres; simp [stripBody] at hres
            | requestException => rw [h1, h2] at hres; simp [stripBody] at hres
            | otherException => rfl
      · simp only [hlt, if_false]

theorem waitForRuststack_never_responds (attempts : Nat → Attempt)
    (timeoutMs : Nat)
    (hnever : ∀ j, (attempts j).result = .requestException)
    (hdur : ∀ j, (attempts j).duration ≤ 1000) :
    ∀ fuel k elapsed, timeoutMs - elapsed ≤ fuel → elapsed < timeoutMs →
      ∃ e, waitForRuststack attempts timeoutMs k elapsed = .ok (false, e) ∧
        timeoutMs ≤ e ∧ e < timeoutMs + 1000 + 100 := by
  intro fuel
  induction fuel with
  | zero => intro k elapsed hle hlt; omega
  | succ n ih =>
      intro k elapsed hle hlt
      rw [waitForRuststack]
      simp only [hlt, if_true, hnever k]
      by_cases hnext : elapsed + (attempts k).duration + 100 < timeoutMs
      · exact ih (k + 1) (elapsed + (attempts k).duration + 100) (by omega) hnext
      · rw [waitForRuststack]
        simp only [hnext, if_false]
        refine ⟨elapsed + (attempts k).duration + 100, rfl, by omega, ?_⟩
        have := hdur k
        omega

theorem runTests_attempted (tests : List (String × TestOutcome)) :
    (runTests tests).1 = tests.map Prod.fst := by
  induction tests with
  | nil => rfl
  | cons p rest ih =>
      obtain ⟨name, outcome⟩ := p
      cases outcome <;> simp [runTests, ih]

theorem runTests_failed (tests : List (String × TestOutcome)) :
    (runTests tests).2 = tests.filterMap (fun p =>
      match p.2 with
      | .passes => none
      | .raises msg => some (p.1, msg)) := by
  induction tests with
  | nil => rfl
  | cons p rest ih =>
      obtain ⟨name, outcome⟩ := p
      cases outcome <;> simp [runTests, ih]

/-! ### Claims -/

/-- C1.  The claim as stated is false: `wait_for_ruststack` never reads the
response body, so it returns `true` on an HTTP 200 whose JSON body has no
status field at all — no request "succeeded with a recognized 'ready' payload"
(HTTP 200 whose status field signals the service is operational), yet the
prober reports ready.  Here every attempt returns status 200 with an empty
body and the prober returns `true` immediately. -/
theorem C1_counterexample :
    waitForRuststackRun (fun _ => ⟨0, .response 200 ⟨none⟩⟩) 30000 = .ok (true, 0) ∧
    readyPayload (AttemptResult.response 200 ⟨none⟩) = false := by
  constructor
  · rw [waitForRuststackRun, waitForRuststack]
    simp
  · rfl

/-- C1 (amended): for every endpoint behaviour and timeout, the readiness
prober `wait_for_ruststack` returns `true` only when some health request
returned HTTP status 200 (the response body is never inspected); it returns
`false` once the timeout elapses without such a response, including when
every attempt failed to connect; and it never raises on any network behaviour
(any sequence of responses and `requests.RequestException`s). -/
theorem C1_amended_wait_ready (attempts : Nat → Attempt) (timeoutMs : Nat)
    (hnet : ∀ j, (attempts j).result ≠ .otherException) :
    ∃ b e, waitForRuststackRun attempts timeoutMs = .ok (b, e) ∧
      (b = true → ∃ j, isStatus200 (attempts j).result = true) ∧
      (b = false → timeoutMs ≤ e) := by
  obtain ⟨b, e, h, ht, hf⟩ :=
    waitForRuststack_spec attempts timeoutMs hnet timeoutMs 0 0 (by omega)
  exact ⟨b, e, h, fun hb => (ht hb).elim fun j hj => ⟨j, hj.2⟩, hf⟩

theorem C1_amended_wait_ready_witness :
    ∃ b e, waitForRuststackRun (fun _ => ⟨0, .requestException⟩) 300 = .ok (b, e) ∧
      (b = true → ∃ j, isStatus200 ((fun (_ : Nat) =>
        (⟨0, .requestException⟩ : Attempt)) j).result = true) ∧
      (b = false → 300 ≤ e) :=
  C1_amended_wait_ready (fun _ => ⟨0, .requestException⟩) 300 (fun _ => by simp)

/-- C8.  The claim as stated is false: the polling interval is 100 ms but each
attempt may itself take up to the 1000 ms per-request timeout, so the prober
can return `false` later than `T + i`.  With `T = 200` ms, `i = 100` ms
(so `i < T`) and every attempt a 1000 ms connection timeout, the prober
returns `false` at elapsed time 1100 ms `> T + i = 300` ms. -/
theorem C8_counterexample :
    waitForRuststackRun (fun _ => ⟨1000, .requestException⟩) 200 = .ok (false, 1100) ∧
    200 + 100 < 1100 := by
  constructor
  · rw [waitForRuststackRun, waitForRuststack]
    simp only [show (0 : Nat) < 200 by omega, if_true]
    rw [waitForRuststack]
    simp
  · omega

/-- C8 (amended): for every timeout `T` with the fixed 100 ms polling interval
`i < T`, if the service never responds to any health request (every attempt
raises `requests.RequestException`, taking at most its 1000 ms per-request
timeout), `wait_for_ruststack` returns `false` at an elapsed time no earlier
than `T` and strictly earlier than `T + 1000 + i`, the extra 1000 ms being the
per-attempt request timeout. -/
theorem C8_amended_timeout_bounds (attempts : Nat → Attempt) (timeoutMs : Nat)
    (hT : 100 < timeoutMs)
    (hnever : ∀ j, (attempts j).result = .requestException)
    (hdur : ∀ j, (attempts j).duration ≤ 1000) :
    ∃ e, waitForRuststackRun attempts timeoutMs = .ok (false, e) ∧
      timeoutMs ≤ e ∧ e < timeoutMs + 1000 + 100 :=
  waitForRuststack_never_responds attempts timeoutMs hnever hdur
    timeoutMs 0 0 (by omega) (by omega)

theorem C8_amended_timeout_bounds_witness :
    ∃ e, waitForRuststackRun (fun _ => ⟨1000, .requestException⟩) 200 = .ok (false, e) ∧
      200 ≤ e ∧ e < 200 + 1000 + 100 :=
  C8_amended_timeout_bounds (fun _ => ⟨1000, .requestException⟩) 200 (by omega)
    (fun _ => rfl) (fun _ => Nat.le_refl 1000)

/-- C10: `wait_for_ruststack` decides readiness from the HTTP status code
alone.  (1) Its result is unchanged when every response body is replaced by
any other body; (2) it returns `true` immediately on a response with status
200, whatever the body; (3) a `requests.RequestException` is treated as a
not-yet-ready attempt (sleep 100 ms and re-poll); (4) any other exception is
not caught and propagates out of the loop. -/
theorem C10_status_code_only :
    (∀ attempts attempts' : Nat → Attempt, ∀ timeoutMs k elapsed : Nat,
      (∀ j, (attempts j).duration = (attempts' j).duration ∧
        stripBody (attempts j).result = stripBody (attempts' j).result) →
      waitForRuststack attempts timeoutMs k elapsed =
        waitForRuststack attempts' timeoutMs k elapsed) ∧
    (∀ attempts : Nat → Attempt, ∀ timeoutMs k elapsed : Nat, ∀ body : HealthBody,
      elapsed < timeoutMs → (attempts k).result = .response 200 body →
      waitForRuststack attempts timeoutMs k elapsed =
        .ok (true, elapsed + (attempts k).duration)) ∧
    (∀ attempts : Nat → Attempt, ∀ timeoutMs k elapsed : Nat,
      elapsed < timeoutMs → (attempts k).result = .requestException →
      waitForRuststack attempts timeoutMs k elapsed =
        waitForRuststack attempts timeoutMs (k + 1)
          (elapsed + (attempts k).duration + 100)) ∧
    (∀ attempts : Nat → Attempt, ∀ timeoutMs k elapsed : Nat,
      elapsed < timeoutMs → (attempts k).result = .otherException →
      waitForRuststack attempts timeoutMs k elapsed = .error ()) := by
  refine ⟨?_, ?_, ?_, ?_⟩
  · intro attempts attempts' timeoutMs k elapsed h
    exact waitForRuststack_body_irrelevant attempts attempts' timeoutMs h
      timeoutMs k elapsed (by omega)
  · intro attempts timeoutMs k elapsed body hlt hres
    rw [waitForRuststack]
    simp [hlt, hres]
  · intro attempts timeoutMs k elapsed hlt hres
    rw [waitForRuststack]
    simp [hlt, hres]
  · intro attempts timeoutMs k elapsed hlt hres
    rw [waitForRuststack]
    simp [hlt, hres]

theorem C10_status_code_only_witness :
    waitForRuststack (fun _ => ⟨0, .response 200 ⟨some "degraded"⟩⟩) 1000 0 0 =
      waitForRuststack (fun _ => ⟨0, .response 200 ⟨none⟩⟩) 1000 0 0 ∧
    waitForRuststack (fun _ => ⟨5, .response 200 ⟨none⟩⟩) 1000 0 0 = .ok (true, 5) ∧
    waitForRuststack (fun _ => ⟨0, .otherException⟩) 1000 0 0 = .error () :=
  ⟨C10_status_code_only.1 _ _ 1000 0 0 (fun _ => ⟨rfl, rfl⟩),
   C10_status_code_only.2.1 _ 1000 0 0 ⟨none⟩ (by omega) rfl,
   C10_status_code_only.2.2.2 _ 1000 0 0 (by omega) rfl⟩

/-- C2.  The claim as stated is false for the `s3_bucket` fixture: its three
teardown sub-steps (list objects, delete each object, delete the container)
share one `try` block, so an error in an early sub-step abandons the rest.
Here the bucket no longer exists, `list_objects_v2` raises `NoSuchBucket`,
and `delete_bucket` is never attempted — the trace of attempted sub-steps is
just the failing list call. -/
theorem C2_counterexample :
    listObjectsV2 ⟨[], []⟩ "test-bucket-a" = .error "NoSuchBucket" ∧
    (s3BucketTeardown ⟨[], []⟩ "test-bucket-a").2 =
      [.listObjects "test-bucket-a"] ∧
    S3Op.deleteBucket "test-bucket-a" ∉
      (s3BucketTeardown ⟨[], []⟩ "test-bucket-a").2 := by
  refine ⟨rfl, rfl, ?_⟩
  simp [s3BucketTeardown, listObjectsV2]

/-- C2 (amended): the `s3_bucket` fixture's teardown sub-steps run inside a
single guarded block, so an error raised by an early sub-step (here: the
initial object listing) skips the remaining sub-steps; the error itself is
swallowed, the teardown never raises.  The S3 cleanup handler in
`test_s3_operations`, by contrast, guards each sub-step separately, so there
both delete-object and delete-bucket are attempted regardless of earlier
errors. -/
theorem C2_amended_teardown (st : S3State) (bucket key : String)
    (herr : ∃ e, listObjectsV2 st bucket = .error e) :
    (s3BucketTeardown st bucket).2 = [.listObjects bucket] ∧
    (s3BucketTeardown st bucket).1 = st ∧
    (integrationS3Cleanup st bucket key).2 =
      [.deleteObject bucket key, .deleteBucket bucket] := by
  obtain ⟨e, he⟩ := herr
  refine ⟨?_, ?_, rfl⟩ <;> simp [s3BucketTeardown, he]

theorem C2_amended_teardown_witness :
    (s3BucketTeardown ⟨[], []⟩ "test-bucket-a").2 =
      [.listObjects "test-bucket-a"] ∧
    (s3BucketTeardown ⟨[], []⟩ "test-bucket-a").1 = ⟨[], []⟩ ∧
    (integrationS3Cleanup ⟨[], []⟩ "test-bucket-a" "k.txt").2 =
      [.deleteObject "test-bucket-a" "k.txt", .deleteBucket "test-bucket-a"] :=
  C2_amended_teardown ⟨[], []⟩ "test-bucket-a" "k.txt" ⟨"NoSuchBucket", rfl⟩

/-- C3: in the conftest fixture graph, for every pair of fixtures where B's
creation consumes A's identifier (every edge `a ∈ conftestDeps b`, in
particular `delivery_stream` consuming `s3_bucket`), the setup order pytest
computes for a test requesting `delivery_stream` places A before B, and the
LIFO teardown order places B before A. -/
theorem C3_dependency_order :
    deliveryStreamSetup = ["ruststack_endpoint", "firehose_client",
      "s3_client", "s3_bucket", "delivery_stream"] ∧
    depEdgesRespected conftestDeps deliveryStreamSetup = true ∧
    comesBefore deliveryStreamSetup "s3_bucket" "delivery_stream" = true ∧
    comesBefore (teardownOrder deliveryStreamSetup)
      "delivery_stream" "s3_bucket" = true := by
  refine ⟨by decide, by decide, by decide, by decide⟩

/-- C4: after all tests have run, `main` terminates with exit code 0 if and
only if no test failed, and with exit code 1 exactly when at least one test
failed. -/
theorem C4_exit_code (tests : List (String × TestOutcome)) :
    (mainExitCode tests = 0 ↔ ∀ p ∈ tests, p.2 = .passes) ∧
    (mainExitCode tests = 1 ↔ ∃ p ∈ tests, p.2 ≠ .passes) := by
  have hfail : (runTests tests).2 = [] ↔ ∀ p ∈ tests, p.2 = .passes := by
    rw [runTests_failed]
    simp only [List.filterMap_eq_nil_iff]
    constructor
    · intro h p hp
      have := h p hp
      cases hout : p.2 with
      | passes => rfl
      | raises msg => rw [hout] at this; simp at this
    · intro h p hp
      rw [h p hp]
  by_cases hnil : (runTests tests).2 = []
  · have hall := hfail.mp hnil
    have hmain : mainExitCode tests = 0 := by simp [mainExitCode, hnil]
    rw [hmain]
    refine ⟨⟨fun _ => hall, fun _ => rfl⟩, ?_, ?_⟩
    · intro h; exact absurd h (by omega)
    · rintro ⟨p, hp, hne⟩
      exact absurd (hall p hp) hne
  · have hmain : mainExitCode tests = 1 := by simp [mainExitCode, hnil]
    rw [hmain]
    refine ⟨⟨fun h => absurd h (by omega), ?_⟩, ?_, fun _ => rfl⟩
    · intro hall
      exact (hnil (hfail.mpr hall)).elim
    · intro _
      by_contra hno
      push_neg at hno
      exact hnil (hfail.mpr hno)

theorem C4_exit_code_witness :
    ((mainExitCode [("test_health_check", .passes)] = 0 ↔
      ∀ p ∈ [(("test_health_check" : String), TestOutcome.passes)],
        p.2 = .passes) ∧
     (mainExitCode [("test_health_check", .passes)] = 1 ↔
      ∃ p ∈ [(("test_health_check" : String), TestOutcome.passes)],
        p.2 ≠ .passes)) ∧
    ((mainExitCode [("test_s3_operations", .raises "boom")] = 0 ↔
      ∀ p ∈ [(("test_s3_operations" : String), TestOutcome.raises "boom")],
        p.2 = .passes) ∧
     (mainExitCode [("test_s3_operations", .raises "boom")] = 1 ↔
      ∃ p ∈ [(("test_s3_operations" : String), TestOutcome.raises "boom")],
        p.2 ≠ .passes)) :=
  ⟨C4_exit_code [("test_health_check", .passes)],
   C4_exit_code [("test_s3_operations", .raises "boom")]⟩

/-- C5: every run of the `secret` and `dynamodb_table` teardowns returns
`.ok` (the `except Exception: pass` swallows the delete error), so calling a
teardown a second time in sequence — in particular after the resource is
already gone — never raises; and teardown acts only on the remote state, so
the test's recorded verdict is unchanged. -/
theorem C5_teardown_idempotent (r : TestRecord) (secretName tableName : String) :
    (∃ st1, secretTeardown r.secretsState secretName = .ok st1 ∧
      ∃ st2, secretTeardown st1 secretName = .ok st2) ∧
    (∃ t1, dynamodbTableTeardown r.dynamoState tableName = .ok t1 ∧
      ∃ t2, dynamodbTableTeardown t1 tableName = .ok t2) ∧
    (teardownTwiceRecord r secretName tableName).verdict = r.verdict := by
  refine ⟨?_, ?_, rfl⟩
  · cases h : deleteSecret r.secretsState secretName with
    | ok st1 =>
        refine ⟨st1, by simp [secretTeardown, h], ?_⟩
        cases h2 : deleteSecret st1 secretName with
        | ok st2 => exact ⟨st2, by simp [secretTeardown, h2]⟩
        | error e => exact ⟨st1, by simp [secretTeardown, h2]⟩
    | error e =>
        refine ⟨r.secretsState, by simp [secretTeardown, h], ?_⟩
        exact ⟨r.secretsState, by simp [secretTeardown, h]⟩
  · cases h : deleteTable r.dynamoState tableName with
    | ok t1 =>
        refine ⟨t1, by simp [dynamodbTableTeardown, h], ?_⟩
        cases h2 : deleteTable t1 tableName with
        | ok t2 => exact ⟨t2, by simp [dynamodbTableTeardown, h2]⟩
        | error e => exact ⟨t1, by simp [dynamodbTableTeardown, h2]⟩
    | error e =>
        refine ⟨r.dynamoState, by simp [dynamodbTableTeardown, h], ?_⟩
        exact ⟨r.dynamoState, by simp [dynamodbTableTeardown, h]⟩

/-- C6.  The claim as stated is false: `main` never consults the readiness
prober and has no short-circuit.  When the service is unreachable — the very
behaviour on which `wait_for_ruststack` reports not-ready, shown here with a
300 ms budget — `main` still attempts all four test cases (each fails with
its connection error) instead of never attempting any. -/
theorem C6_counterexample :
    waitForRuststackRun (fun _ => ⟨0, .requestException⟩) 300 = .ok (false, 300) ∧
    (runTests testsWhenServiceDown).1 =
      ["test_health_check", "test_s3_operations",
       "test_dynamodb_operations", "test_lambda_api"] ∧
    (runTests testsWhenServiceDown).1 ≠ [] := by
  refine ⟨?_, rfl, by simp [runTests, testsWhenServiceDown]⟩
  rw [waitForRuststackRun, waitForRuststack]
  simp only [show (0 : Nat) < 300 by omega, if_true]
  rw [waitForRuststack]
  simp only [show (0 + 0 + 100 : Nat) < 300 by omega, if_true]
  rw [waitForRuststack]
  simp only [show (0 + 0 + 100 + 0 + 100 : Nat) < 300 by omega, if_true]
  rw [waitForRuststack]
  simp

/-- C6 (amended): the aggregator has no readiness gate.  When the service is
unreachable before any test has run, `main` attempts every test case, records
each as failed with its connection error, and exits with the non-zero code 1;
no skip-style summary exists. -/
theorem C6_amended_no_short_circuit :
    (runTests testsWhenServiceDown).1 = testsWhenServiceDown.map Prod.fst ∧
    (runTests testsWhenServiceDown).2 =
      [("test_health_check", "ConnectionError"),
       ("test_s3_operations", "ConnectionError"),
       ("test_dynamodb_operations", "ConnectionError"),
       ("test_lambda_api", "ConnectionError")] ∧
    mainExitCode testsWhenServiceDown = 1 := by
  refine ⟨rfl, rfl, rfl⟩

/-- C7: a failure in one test is contained to that test — `main`'s loop
attempts every test in order whatever the earlier outcomes were, and the
final summary (`failed`) lists exactly the failed tests, each name paired
with its captured error message, in run order. -/
theorem C7_failure_containment (tests : List (String × TestOutcome)) :
    (runTests tests).1 = tests.map Prod.fst ∧
    (runTests tests).2 = tests.filterMap (fun p =>
      match p.2 with
      | .passes => none
      | .raises msg => some (p.1, msg)) :=
  ⟨runTests_attempted tests, runTests_failed tests⟩

/-- C9.  The claim as stated is false: when the subprocess is still alive
after the 5-second grace period, `proc.wait(timeout=5)` raises
`subprocess.TimeoutExpired` out of the fixture and no escalation (no
`proc.kill()`) follows the grace period's expiry. -/
theorem C9_counterexample :
    ruststackProcessTeardown .neverExits =
      ([.terminate, .wait 5], some "TimeoutExpired") ∧
    ProcAction.kill ∉ (ruststackProcessTeardown .neverExits).1 := by
  refine ⟨rfl, by decide⟩

/-- C9 (amended): on every exit path the `ruststack_process` fixture's
teardown sends the graceful `terminate` signal and then waits up to the fixed
5-second grace period; the teardown completes without an exception exactly
when the process exits within that grace period, and when the grace period
expires with the process still running, `proc.wait` raises `TimeoutExpired`
— the teardown never escalates to a kill. -/
theorem C9_amended_terminate_then_wait (p : ProcBehavior) :
    (ruststackProcessTeardown p).1 = [.terminate, .wait 5] ∧
    ((ruststackProcessTeardown p).2 = none ↔
      ∃ t, p = .exitsAfter t ∧ t ≤ 5) ∧
    ProcAction.kill ∉ (ruststackProcessTeardown p).1 := by
  cases p with
  | exitsAfter t =>
      by_cases h : t ≤ 5
      · refine ⟨by simp [ruststackProcessTeardown, h], ?_, ?_⟩
        · simp only [ruststackProcessTeardown, h, if_true]
          exact ⟨fun _ => ⟨t, rfl, h⟩, fun _ => trivial⟩
        · simp [ruststackProcessTeardown, h]
      · refine ⟨by simp [ruststackProcessTeardown, h], ?_, ?_⟩
        · simp only [ruststackProcessTeardown, h, if_false]
          constructor
          · intro hnone; simp at hnone
          · rintro ⟨t', ht', hle⟩
            cases ht'
            exact absurd hle h
        · simp [ruststackProcessTeardown, h]
  | neverExits =>
      refine ⟨rfl, ?_, by decide⟩
      constructor
      · intro hnone; simp [ruststackProcessTeardown] at hnone
      · rintro ⟨t, ht, _⟩
        exact ProcBehavior.noConfusion ht

theorem C9_amended_terminate_then_wait_witness :
    ((ruststackProcessTeardown (.exitsAfter 1)).1 = [.terminate, .wait 5] ∧
      ((ruststackProcessTeardown (.exitsAfter 1)).2 = none ↔
        ∃ t, ProcBehavior.exitsAfter 1 = .exitsAfter t ∧ t ≤ 5) ∧
      ProcAction.kill ∉ (ruststackProcessTeardown (.exitsAfter 1)).1) ∧
    ((ruststackProcessTeardown .neverExits).1 = [.terminate, .wait 5] ∧
      ((ruststackProcessTeardown .neverExits).2 = none ↔
        ∃ t, ProcBehavior.neverExits = .exitsAfter t ∧ t ≤ 5) ∧
      ProcAction.kill ∉ (ruststackProcessTeardown .neverExits).1) :=
  ⟨C9_amended_terminate_then_wait (.exitsAfter 1),
   C9_amended_terminate_then_wait .neverExits⟩

end RustStackHarness
